import Mathlib

/-!
Verification development for the `segcam.py` driver of the pytorch-grad-cam
segmentation-CAM example.  The driver (argument parsing, image loading, the
ROI-mode dispatch, the CAM/guided-backprop invocations and the display/save
branch) is embedded from the source file `segcam.py`.  The ROI descriptor
classes (`BaseROI`, `PixelROI`, `ClassROI`) and the segmentation adapter
(`SegModel`) live in `pytorch_grad_cam.utils.roi`, which is part of this
repository but not among the given source files; those definitions are
modelled from the specification, as marked in their doc comments.
-/

set_option autoImplicit false

namespace SegCam

/-! ## Images -/

/-- A raw image as decoded by `cv2.imread` (segcam.py line 85): height x width
x 3 array of 8-bit channel values, stored in BGR channel order. -/
structure RawImage where
  h : Nat
  w : Nat
  pix : Nat → Nat → Fin 3 → Nat

/-- The driver's floating-point image: height x width x 3 array of RGB values
(rationals model the real-valued float32 entries). -/
structure Image where
  h : Nat
  w : Nat
  pix : Nat → Nat → Fin 3 → ℚ

/-- segcam.py lines 85-86: `rgb_img = cv2.imread(...)[:, :, ::-1]` followed by
`rgb_img = np.float32(rgb_img) / 255`.  The channel axis is reversed
(BGR to RGB, `Fin.rev` sends k to 2 - k) and each 8-bit value is divided
by 255. -/
def rgb_img (raw : RawImage) : Image :=
  { h := raw.h, w := raw.w
  , pix := fun i j k => (raw.pix i j k.rev : ℚ) / 255 }

/-! ## Argument parsing -/

/-- The parsed command-line arguments of `get_args` (segcam.py lines 29-53). -/
structure Args where
  use_cuda : Bool
  image_path : String
  aug_smooth : Bool
  eigen_smooth : Bool
  method : String
  roimode : Int

/-- segcam.py lines 40-44: the strings accepted for `--method` (the argparse
`choices` list). -/
def methodChoices : List String :=
  ["gradcam", "gradcam++", "scorecam", "xgradcam",
   "ablationcam", "eigencam", "eigengradcam"]

/-- The argparse parser accepts a `--method` value exactly when it is among
`choices` (segcam.py lines 40-44); any other string is rejected at parse
time. -/
def parserAcceptsMethod (s : String) : Bool :=
  methodChoices.contains s

/-- segcam.py line 47: `args.use_cuda = args.use_cuda and
torch.cuda.is_available()`.  `cli` holds the flags exactly as parsed from the
command line; the result is the `args` object the rest of the run uses. -/
def get_args (cli : Args) (cuda_available : Bool) : Args :=
  { cli with use_cuda := cli.use_cuda && cuda_available }

/-! ## The CAM method dispatch table -/

/-- The seven CAM algorithm classes imported from pytorch_grad_cam
(segcam.py lines 9-15); opaque tags here since the algorithms themselves are
external collaborators. -/
inductive CAMAlgorithm where
  | GradCAM
  | ScoreCAM
  | GradCAMPlusPlus
  | AblationCAM
  | XGradCAM
  | EigenCAM
  | EigenGradCAM
deriving DecidableEq

/-- segcam.py lines 65-72: the `methods` dictionary mapping each method name
to its CAM algorithm class, in source order. -/
def methods : List (String × CAMAlgorithm) :=
  [("gradcam", CAMAlgorithm.GradCAM),
   ("scorecam", CAMAlgorithm.ScoreCAM),
   ("gradcam++", CAMAlgorithm.GradCAMPlusPlus),
   ("ablationcam", CAMAlgorithm.AblationCAM),
   ("xgradcam", CAMAlgorithm.XGradCAM),
   ("eigencam", CAMAlgorithm.EigenCAM),
   ("eigengradcam", CAMAlgorithm.EigenGradCAM)]

/-! ## ROI descriptors

The ROI classes live in `pytorch_grad_cam/utils/roi.py`, which belongs to
this repository but is not among the given sources; the definitions below are
modelled from the specification (spec sections 3 and 4.1). -/

/-- The error taxonomy of spec section 7. -/
inductive ROIError where
  | OutOfBoundsError
  | UnknownClassError
  | InvalidModeError
deriving DecidableEq

/-- Modelled from the spec: an ROI descriptor identifies which spatial
locations are of interest.  Variants: all pixels (`BaseROI`), a single
(row, col) pixel (`PixelROI`), or a class region, i.e. a set of locations
sharing a class label (`ClassROI`). -/
inductive ROIDescriptor where
  | base (h w : Nat)
  | pixel (row col : Nat) (h w : Nat)
  | classRegion (cls : Nat) (region : List (Nat × Nat))
deriving DecidableEq

/-- Modelled from the spec: the spatial mask induced by an ROI descriptor.
All-pixels selects every location, single-pixel exactly its coordinate, a
class region exactly its location set. -/
def ROIDescriptor.mask : ROIDescriptor → Nat → Nat → Bool
  | .base _ _, _, _ => true
  | .pixel r c _ _, i, j => i == r && j == c
  | .classRegion _ region, i, j => region.contains (i, j)

/-- Modelled from the spec: the all-pixels ROI (`BaseROI(rgb_img)` in
segcam.py line 93): every location, no class restriction, no parameters. -/
def BaseROI (img : Image) : ROIDescriptor :=
  ROIDescriptor.base img.h img.w

/-- Modelled from the spec: the fixed-pixel ROI (`PixelROI(row, col, img)`):
takes (row, col); validates 0 <= row < H and 0 <= col < W; fails with
`OutOfBoundsError` otherwise. -/
def PixelROI (row col : Int) (img : Image) : Except ROIError ROIDescriptor :=
  if 0 ≤ row ∧ row < (img.h : Int) ∧ 0 ≤ col ∧ col < (img.w : Int) then
    Except.ok (ROIDescriptor.pixel row.toNat col.toNat img.h img.w)
  else
    Except.error ROIError.OutOfBoundsError

/-- Modelled from the spec: the blocking interactive pixel pick
(`roi.pickPixel()` in segcam.py line 104) displays the image, captures one
click and overwrites the descriptor's coordinate with the click's image
coordinates; here the resolved click is passed explicitly (the two-phase
protocol of spec section 9). -/
def pickPixel (click : Nat × Nat) : ROIDescriptor → ROIDescriptor
  | ROIDescriptor.pixel _ _ h w => ROIDescriptor.pixel click.1 click.2 h w
  | r => r

/-- Modelled from the spec: the set of locations of the label map carrying a
given class label, in row-major order. -/
def classPixels (img : Image) (pred : Nat → Nat → Nat) (cls : Nat) :
    List (Nat × Nat) :=
  (List.range img.h).flatMap fun i =>
    (List.range img.w).filterMap fun j =>
      if pred i j = cls then some (i, j) else none

/-- Modelled from the spec: whether a class id exists in the label map (over
the image's height x width grid). -/
def classExistsIn (img : Image) (pred : Nat → Nat → Nat) (cls : Nat) : Bool :=
  (List.range img.h).any fun i =>
    (List.range img.w).any fun j => pred i j == cls

/-- Modelled from the spec: the class-region ROI (`ClassROI(img, pred, cls)`
in segcam.py line 108): takes a per-pixel predicted-class label map and a
target class id; validates that the class id exists in the label map, else
fails with `UnknownClassError`; the region is the set of locations sharing
the class label. -/
def ClassROI (img : Image) (pred : Nat → Nat → Nat) (cls : Nat) :
    Except ROIError ROIDescriptor :=
  if classExistsIn img pred cls then
    Except.ok (ROIDescriptor.classRegion cls (classPixels img pred cls))
  else
    Except.error ROIError.UnknownClassError

/-- Modelled from the spec: interactive selection of class/component
(`roi.pickComponentClass()` in segcam.py line 112), resolved by an explicit
user click: the descriptor is re-targeted to the clicked location's predicted
class and its region becomes the locations sharing that label (the optional
connected-component refinement of the region is not exercised by any
claim). -/
def pickComponentClass (img : Image) (pred : Nat → Nat → Nat)
    (click : Nat × Nat) : ROIDescriptor → ROIDescriptor
  | ROIDescriptor.classRegion _ _ =>
      ROIDescriptor.classRegion (pred click.1 click.2)
        (classPixels img pred (pred click.1 click.2))
  | r => r

/-! ## The segmentation model and its adapter -/

/-- An H x W x C score map, the output of the wrapped segmentation network
(one score per location per class). -/
structure ScoreMap where
  h : Nat
  w : Nat
  c : Nat
  score : Nat → Nat → Nat → ℚ

/-- segcam.py line 107 (with `get_output_tensor` and `torch.argmax` modelled
from the spec, the network given by its output score map): the per-pixel
predicted-class label map, the index of the first maximal class score at each
location. -/
def predictedLabels (net : ScoreMap) : Nat → Nat → Nat := fun i j =>
  (List.range net.c).foldl
    (fun best k => if net.score i j best < net.score i j k then k else best) 0

/-- Modelled from the spec: the segmentation model adapter
(`SegModel(model, roi=...)`) wraps a segmentation network, given here by the
score map it produces on each input, together with the active ROI
descriptor. -/
structure SegModel (α : Type) where
  model : α → ScoreMap
  roi : ROIDescriptor

/-- Modelled from the spec: the adapter's forward pass runs the wrapped
network to obtain the H x W x C score map, applies the active ROI mask, and
sums the masked map over the two spatial dimensions, yielding one scalar per
class `k`. -/
def SegModel.forward {α : Type} (m : SegModel α) (x : α) (k : Nat) : ℚ :=
  let sm := m.model x
  ((List.range sm.h).map fun i =>
    ((List.range sm.w).map fun j =>
      if m.roi.mask i j then sm.score i j k else 0).sum).sum

/-- The full spatial sum of a score map for class `k`, with no masking: the
specification's description of the all-pixels reduction. -/
def spatialSum (sm : ScoreMap) (k : Nat) : ℚ :=
  ((List.range sm.h).map fun i =>
    ((List.range sm.w).map fun j => sm.score i j k).sum).sum

/-! ## The ROI-mode dispatch -/

/-- segcam.py lines 90-113: the `if ROIMode == 0 ... elif ROIMode == 3` chain.
The result is the list of ROI descriptors the run constructs, in their state
after any interactive pick, or the error the construction raised.  `pick` is
the resolved click of mode 2's `pickPixel`, `click` the resolved choice of
mode 3's `pickComponentClass`.  The chain has no `else` branch: any other
mode constructs nothing and raises nothing. -/
def roiDispatch (img : Image) (net : ScoreMap) (pick : Nat × Nat)
    (click : Nat × Nat) (ROIMode : Int) :
    Except ROIError (List ROIDescriptor) :=
  if ROIMode = 0 then
    Except.ok [BaseROI img]
  else if ROIMode = 1 then
    match PixelROI 50 130 img with
    | Except.error e => Except.error e
    | Except.ok roi => Except.ok [roi]
  else if ROIMode = 2 then
    match PixelROI 50 130 img with
    | Except.error e => Except.error e
    | Except.ok roi => Except.ok [pickPixel pick roi]
  else if ROIMode = 3 then
    match ClassROI img (predictedLabels net) 12 with
    | Except.error e => Except.error e
    | Except.ok roi =>
        Except.ok [pickComponentClass img (predictedLabels net) click roi]
  else
    Except.ok []

/-! ## The display/save branch -/

/-- The driver's final output action: either show the figures interactively
or write image files. -/
inductive OutputAction where
  | display
  | save (files : List String)
deriving DecidableEq

/-- segcam.py line 145: the condition of the display-vs-save branch.  In the
source it is the literal `True`, independent of the parsed arguments. -/
def displaySaveCondition (_ : Args) : Bool := true

/-- segcam.py lines 154-156: the save branch issues three `cv2.imwrite`
calls; each appends its file name to the write log. -/
def imwrite (fname : String) (log : List String) : List String :=
  log ++ [fname]

/-- The file names written by the save branch of segcam.py lines 153-156, in
call order. -/
def saveBranch (method : String) : List String :=
  imwrite (method ++ "_cam_gb.jpg")
    (imwrite (method ++ "_gb.jpg")
      (imwrite (method ++ "_cam.jpg") []))

/-- segcam.py lines 145-156: the `if True: ... plt.show() else:
cv2.imwrite x3` branch. -/
def outputStep (args : Args) : OutputAction :=
  if displaySaveCondition args then OutputAction.display
  else OutputAction.save (saveBranch args.method)

/-! ## The driver -/

/-- The arguments of the `methods[args.method](model=..., target_layer=...,
use_cuda=...)` construction plus the `cam(...)` call of segcam.py
lines 116-131. -/
structure CamCall where
  use_cuda : Bool
  aug_smooth : Bool
  eigen_smooth : Bool
  target_category : Option Nat
deriving DecidableEq

/-- The arguments of `GuidedBackpropReLUModel(model=..., use_cuda=...)` and
the `gb_model(input_tensor, target_category=...)` call of segcam.py
lines 138-139. -/
structure GbCall where
  use_cuda : Bool
  target_category : Option Nat
deriving DecidableEq

/-- segcam.py line 122: `target_category = None`; no configuration path sets
any other value. -/
def target_category : Option Nat := none

/-- The observable record of one driver run. -/
structure DriverRun where
  image : Image
  rois : Except ROIError (List ROIDescriptor)
  camCall : CamCall
  gbCall : GbCall
  output : OutputAction

/-- segcam.py `__main__` (lines 56-156): parse the configuration, load and
normalize the image, dispatch on the ROI mode, invoke the CAM engine and the
guided-backprop engine, then display or save.  `cli` is the raw command line,
`cuda_available` the value of `torch.cuda.is_available()`, `raw` the decoded
image file, `net` the segmentation network's score map on the preprocessed
input, `pick` and `click` the resolved interactive choices. -/
def driver (cli : Args) (cuda_available : Bool) (raw : RawImage)
    (net : ScoreMap) (pick click : Nat × Nat) : DriverRun :=
  let args := get_args cli cuda_available
  let img := rgb_img raw
  { image := img
  , rois := roiDispatch img net pick click args.roimode
  , camCall :=
      { use_cuda := args.use_cuda
      , aug_smooth := args.aug_smooth
      , eigen_smooth := args.eigen_smooth
      , target_category := target_category }
  , gbCall :=
      { use_cuda := args.use_cuda
      , target_category := target_category }
  , output := outputStep args }

/-! ## The interactive pick: order of operations

Modelled from the spec and segcam.py lines 98-104: in mode 2 the driver may
run `roi.pickPixel()` either before or after `SegModel(model, roi=roi)`.
`SegModel` holds the descriptor by reference and `pickPixel` mutates the
shared descriptor in place, so the run's heap is modelled as a single shared
ROI cell; building the adapter records that it refers to that cell. -/

/-- The state of a mode-2 run: the single shared ROI cell and whether the
adapter has been built over it. -/
structure PickRunState where
  roiCell : ROIDescriptor
  segmodelBuilt : Bool
deriving DecidableEq

/-- Building `SegModel(model, roi=roi)`: the adapter is created, referring to
the shared ROI cell. -/
def buildSegModel (s : PickRunState) : PickRunState :=
  { s with segmodelBuilt := true }

/-- Running `roi.pickPixel()` with resolved click `p`: the shared ROI cell is
overwritten in place. -/
def doPick (p : Nat × Nat) (s : PickRunState) : PickRunState :=
  { s with roiCell := pickPixel p s.roiCell }

/-- Mode-2 run that picks the pixel before passing the descriptor to
`SegModel` (the commented-out order of segcam.py line 102). -/
def pickBeforeRun (init : ROIDescriptor) (p : Nat × Nat) : PickRunState :=
  buildSegModel (doPick p { roiCell := init, segmodelBuilt := false })

/-- Mode-2 run that builds `SegModel` first and picks the pixel afterwards
(the order of segcam.py lines 103-104). -/
def pickAfterRun (init : ROIDescriptor) (p : Nat × Nat) : PickRunState :=
  doPick p (buildSegModel { roiCell := init, segmodelBuilt := false })

/-- The adapter's forward pass at the end of a mode-2 run: it reads the
shared ROI cell's current state. -/
def PickRunState.forward {α : Type} (s : PickRunState) (model : α → ScoreMap)
    (x : α) (k : Nat) : ℚ :=
  SegModel.forward { model := model, roi := s.roiCell } x k

/-! ## Shared concrete instances for witnesses -/

/-- A concrete 51 x 131 image (large enough for the fixed pixel (50, 130)). -/
def wImg : Image := { h := 51, w := 131, pix := fun _ _ _ => 0 }

/-- A concrete score map on the same grid with 13 classes whose top class is
12 at every location. -/
def wNet : ScoreMap :=
  { h := 51, w := 131, c := 13
  , score := fun _ _ k => if k = 12 then (1 : ℚ) else 0 }

/-- A concrete raw image with constant channel value 7. -/
def wRaw : RawImage := { h := 4, w := 5, pix := fun _ _ _ => 7 }

/-- A concrete command line. -/
def wCli : Args :=
  { use_cuda := true, image_path := "./examples/both.png"
  , aug_smooth := false, eigen_smooth := false
  , method := "gradcam", roimode := 0 }

/-! ## Theorems -/

/-- C1 counterexample: the claim says the display-vs-save choice is selected
by a runtime display-vs-save flag, so some runtime configuration would
persist the three files; in the code the branch condition is the literal
`True` (segcam.py line 145), so no run, under any configuration, ever takes
the save branch. -/
theorem driver_never_saves :
    ¬ ∃ (cli : Args) (cuda_available : Bool) (raw : RawImage)
        (net : ScoreMap) (pick click : Nat × Nat) (files : List String),
        (driver cli cuda_available raw net pick click).output =
          OutputAction.save files := by
  rintro ⟨cli, ca, raw, net, pick, click, files, h⟩
  simp [driver, outputStep, displaySaveCondition] at h

/-- C1 amended: the display-vs-save branch is controlled by a hard-coded
constant (`if True:`), not a runtime flag: every run displays interactively,
and the save branch — dead code under every configuration — would persist
exactly the three files `{method}_cam.jpg`, `{method}_gb.jpg`,
`{method}_cam_gb.jpg`. -/
theorem driver_output_display_and_save_names (cli : Args)
    (cuda_available : Bool) (raw : RawImage) (net : ScoreMap)
    (pick click : Nat × Nat) :
    (driver cli cuda_available raw net pick click).output =
      OutputAction.display ∧
    saveBranch cli.method =
      [cli.method ++ "_cam.jpg", cli.method ++ "_gb.jpg",
       cli.method ++ "_cam_gb.jpg"] ∧
    (saveBranch cli.method).length = 3 :=
  ⟨rfl, rfl, rfl⟩

/-- C2: for every `--roimode` value outside {0, 1, 2, 3}, the ROI dispatch
chain (segcam.py lines 90-113) raises no error and constructs no ROI
descriptor. -/
theorem roiDispatch_unrecognized_mode (img : Image) (net : ScoreMap)
    (pick click : Nat × Nat) (m : Int)
    (h0 : m ≠ 0) (h1 : m ≠ 1) (h2 : m ≠ 2) (h3 : m ≠ 3) :
    roiDispatch img net pick click m = Except.ok [] := by
  simp [roiDispatch, h0, h1, h2, h3]

/-- C2 witness: mode 7 on concrete inputs constructs nothing and raises
nothing. -/
theorem roiDispatch_unrecognized_mode_witness :
    roiDispatch wImg wNet (0, 0) (0, 0) 7 = Except.ok [] :=
  roiDispatch_unrecognized_mode wImg wNet (0, 0) (0, 0) 7
    (by decide) (by decide) (by decide) (by decide)

/-- C6: a `--method` string is accepted by the argument parser exactly when
it is one of the seven names, and every accepted name has an entry in the
`methods` dispatch table, so the call-time lookup never fails. -/
theorem method_accepted_iff_and_lookup (s : String) :
    (parserAcceptsMethod s = true ↔
      (s = "gradcam" ∨ s = "gradcam++" ∨ s = "scorecam" ∨ s = "xgradcam" ∨
       s = "ablationcam" ∨ s = "eigencam" ∨ s = "eigengradcam")) ∧
    (parserAcceptsMethod s = true → (methods.lookup s).isSome = true) := by
  have hiff : parserAcceptsMethod s = true ↔
      (s = "gradcam" ∨ s = "gradcam++" ∨ s = "scorecam" ∨ s = "xgradcam" ∨
       s = "ablationcam" ∨ s = "eigencam" ∨ s = "eigengradcam") := by
    simp [parserAcceptsMethod, methodChoices]
  refine ⟨hiff, fun h => ?_⟩
  rcases hiff.mp h with rfl | rfl | rfl | rfl | rfl | rfl | rfl <;> rfl

/-- C6 witness: "gradcam" is accepted and its dispatch-table lookup
succeeds. -/
theorem method_accepted_iff_and_lookup_witness :
    parserAcceptsMethod "gradcam" = true ∧
    (methods.lookup "gradcam").isSome = true :=
  ⟨by rfl, (method_accepted_iff_and_lookup "gradcam").2 (by rfl)⟩

/-- C9: the effective `use_cuda` setting is true exactly when the
`--use-cuda` flag was passed and a CUDA device is available (segcam.py
line 47), and both the CAM invocation and the guided-backprop invocation
receive that same effective setting. -/
theorem use_cuda_effective (cli : Args) (cuda_available : Bool)
    (raw : RawImage) (net : ScoreMap) (pick click : Nat × Nat) :
    ((driver cli cuda_available raw net pick click).camCall.use_cuda = true ↔
      (cli.use_cuda = true ∧ cuda_available = true)) ∧
    (driver cli cuda_available raw net pick click).gbCall.use_cuda =
      (driver cli cuda_available raw net pick click).camCall.use_cuda := by
  refine ⟨?_, rfl⟩
  simp [driver, get_args]

/-- C10: in every run the target category passed to the CAM computation and
to the guided-backprop computation is `None` (segcam.py lines 122, 129, 139);
no configuration changes it. -/
theorem target_category_always_none (cli : Args) (cuda_available : Bool)
    (raw : RawImage) (net : ScoreMap) (pick click : Nat × Nat) :
    (driver cli cuda_available raw net pick click).camCall.target_category =
      none ∧
    (driver cli cuda_available raw net pick click).gbCall.target_category =
      none :=
  ⟨rfl, rfl⟩

/-- C3: for the all-pixels ROI, the adapter's forward output for each class
equals the sum of the wrapped network's H x W x C score map over the two
spatial dimensions, for every input. -/
theorem SegModel_base_forward_eq_spatialSum {α : Type} (model : α → ScoreMap)
    (img : Image) (x : α) (k : Nat) :
    SegModel.forward { model := model, roi := BaseROI img } x k =
      spatialSum (model x) k := by
  simp [SegModel.forward, spatialSum, BaseROI, ROIDescriptor.mask]

/-- C5: constructing a fixed-pixel ROI fails with `OutOfBoundsError` exactly
when the coordinate violates 0 <= row < H or 0 <= col < W; in particular
row = H fails. -/
theorem PixelROI_out_of_bounds (row col : Int) (img : Image) :
    (PixelROI row col img = Except.error ROIError.OutOfBoundsError ↔
      ¬(0 ≤ row ∧ row < (img.h : Int) ∧ 0 ≤ col ∧ col < (img.w : Int))) ∧
    PixelROI (img.h : Int) col img = Except.error ROIError.OutOfBoundsError := by
  constructor
  · by_cases h : 0 ≤ row ∧ row < (img.h : Int) ∧ 0 ≤ col ∧ col < (img.w : Int)
    · simp [PixelROI, h]
    · simp [PixelROI, h]
  · have h : ¬(0 ≤ (img.h : Int) ∧ (img.h : Int) < (img.h : Int) ∧
        0 ≤ col ∧ col < (img.w : Int)) := by
      rintro ⟨-, h2, -⟩
      exact lt_irrefl _ h2
    simp [PixelROI, h]

/-- C7: for the interactive-pixel ROI, running the blocking pick before or
after the descriptor is passed to the adapter are both supported (the
adapter gets built either way) and, once the pick resolves to the same
coordinate, both orders give the adapter the same forward behaviour. -/
theorem pick_order_both_supported_same_result {α : Type}
    (init : ROIDescriptor) (p : Nat × Nat) (model : α → ScoreMap) (x : α)
    (k : Nat) :
    (pickBeforeRun init p).segmodelBuilt = true ∧
    (pickAfterRun init p).segmodelBuilt = true ∧
    (pickBeforeRun init p).forward model x k =
      (pickAfterRun init p).forward model x k :=
  ⟨rfl, rfl, rfl⟩

/-- C8: the image the driver holds (and hands to the ROI dispatch) is the
loaded 8-bit image converted to float, channel-reversed to RGB and divided
by 255, so every element lies in [0, 1]. -/
theorem rgb_img_in_unit_interval (cli : Args) (cuda_available : Bool)
    (raw : RawImage) (net : ScoreMap) (pick click : Nat × Nat)
    (hb : ∀ i j k, raw.pix i j k ≤ 255) :
    (driver cli cuda_available raw net pick click).image = rgb_img raw ∧
    (∀ i j k, (rgb_img raw).pix i j k = (raw.pix i j k.rev : ℚ) / 255) ∧
    (∀ i j k, 0 ≤ (rgb_img raw).pix i j k ∧ (rgb_img raw).pix i j k ≤ 1) := by
  refine ⟨rfl, fun i j k => rfl, fun i j k => ⟨?_, ?_⟩⟩
  · exact div_nonneg (Nat.cast_nonneg _) (by norm_num)
  · show (raw.pix i j k.rev : ℚ) / 255 ≤ 1
    rw [div_le_one (by norm_num)]
    exact_mod_cast hb i j k.rev

/-- C8 witness: on a concrete raw image the driver's image is the normalized
one and a sample element lies in [0, 1]. -/
theorem rgb_img_in_unit_interval_witness :
    (driver wCli true wRaw wNet (0, 0) (0, 0)).image = rgb_img wRaw ∧
    (0 ≤ (rgb_img wRaw).pix 0 0 2 ∧ (rgb_img wRaw).pix 0 0 2 ≤ 1) := by
  have h := rgb_img_in_unit_interval wCli true wRaw wNet (0, 0) (0, 0)
    (fun _ _ _ => by norm_num [wRaw])
  exact ⟨h.1, h.2.2 0 0 2⟩

/-- C4: for each `--roimode` in {0, 1, 2, 3} the dispatch constructs exactly
one ROI descriptor, of the variant matching the mode: 0 the all-pixels
descriptor, 1 the fixed pixel (50, 130), 2 a pixel descriptor overwritten by
the interactive pick, 3 a class-region descriptor derived from the predicted
per-pixel label map. -/
theorem roiDispatch_recognized_modes (img : Image) (net : ScoreMap)
    (pick click : Nat × Nat) (hh : 50 < img.h) (hw : 130 < img.w)
    (hc : classExistsIn img (predictedLabels net) 12 = true) :
    roiDispatch img net pick click 0 =
      Except.ok [ROIDescriptor.base img.h img.w] ∧
    roiDispatch img net pick click 1 =
      Except.ok [ROIDescriptor.pixel 50 130 img.h img.w] ∧
    roiDispatch img net pick click 2 =
      Except.ok [ROIDescriptor.pixel pick.1 pick.2 img.h img.w] ∧
    roiDispatch img net pick click 3 =
      Except.ok [ROIDescriptor.classRegion
        (predictedLabels net click.1 click.2)
        (classPixels img (predictedLabels net)
          (predictedLabels net click.1 click.2))] := by
  have hcond : 0 ≤ (50 : Int) ∧ (50 : Int) < (img.h : Int) ∧
      0 ≤ (130 : Int) ∧ (130 : Int) < (img.w : Int) := by
    refine ⟨by norm_num, ?_, by norm_num, ?_⟩
    · exact_mod_cast hh
    · exact_mod_cast hw
  have hpix : PixelROI 50 130 img =
      Except.ok (ROIDescriptor.pixel 50 130 img.h img.w) := by
    unfold PixelROI
    rw [if_pos hcond]
    rfl
  have hcls : ClassROI img (predictedLabels net) 12 =
      Except.ok (ROIDescriptor.classRegion 12
        (classPixels img (predictedLabels net) 12)) := by
    unfold ClassROI
    rw [hc]
    simp
  refine ⟨by simp [roiDispatch, BaseROI], ?_, ?_, ?_⟩
  · simp [roiDispatch, hpix]
  · simp [roiDispatch, hpix, pickPixel]
  · simp [roiDispatch, hcls, pickComponentClass]

set_option maxRecDepth 10000 in
/-- C4 witness: the four modes on a concrete 51 x 131 image and a score map
whose predicted label is 12 everywhere. -/
theorem roiDispatch_recognized_modes_witness :
    roiDispatch wImg wNet (3, 4) (0, 0) 0 =
      Except.ok [ROIDescriptor.base 51 131] ∧
    roiDispatch wImg wNet (3, 4) (0, 0) 1 =
      Except.ok [ROIDescriptor.pixel 50 130 51 131] ∧
    roiDispatch wImg wNet (3, 4) (0, 0) 2 =
      Except.ok [ROIDescriptor.pixel 3 4 51 131] ∧
    roiDispatch wImg wNet (3, 4) (0, 0) 3 =
      Except.ok [ROIDescriptor.classRegion
        (predictedLabels wNet 0 0)
        (classPixels wImg (predictedLabels wNet)
          (predictedLabels wNet 0 0))] :=
  roiDispatch_recognized_modes wImg wNet (3, 4) (0, 0)
    (by decide) (by decide) (by decide)

end SegCam
